import Mathlib

/-!
Shallow embedding of two automation scripts from the golang/build repository:

* Component A: `env/netbsd-amd64/mkvm.py`, which provisions a NetBSD VM image
  by driving the `anita` emulator-automation library: it builds a fixed list of
  shell commands (parameterised by the `arch` and `release` command-line
  arguments), boots the machine, logs in, issues each command in order, and
  finally halts the machine, swallowing any exception from the halt.

* Component B: `recipes/recipes/tricium_simple.py`, a recipe whose `RunSteps`
  fetches a Gerrit change description, checks out the change at a computed ref,
  lists the files affected by the patch, and invokes a fixed list of four
  Tricium analyzers; `GenTests` defines two fixture-driven test cases.

External libraries (`anita`, the recipe engine) are modelled as oracles: each
external call may either succeed (returning a value chosen by the oracle) or
raise, and the embedding records the trace of calls the script makes.
-/

namespace Mkvm

/-- The first element of `commands`: the here-document appended to
`/etc/rc.local` inside the guest. -/
def rcLocalAppend : String :=
  "cat >> /etc/rc.local <<EOF\n(\n  export PATH=/usr/pkg/bin:/usr/pkg/sbin:${PATH}\n  export GOROOT_BOOTSTRAP=/usr/pkg/go14\n  set -x\n  echo \x27starting buildlet script\x27\n  netstat -rn\n  cat /etc/resolv.conf\n  dig metadata.google.internal\n  (\n    set -e\n    curl -o /buildlet \\$(curl -H \x27Metadata-Flavor: Google\x27 http://metadata.google.internal/computeMetadata/v1/instance/attributes/buildlet-binary-url)\n    chmod +x /buildlet\n    exec /buildlet\n  )\n  echo \x27giving up\x27\n  sleep 10\n  halt -p\n)\nEOF"

/-- The second element of `commands`: writes `/etc/ifconfig.vioif0`. -/
def ifconfigVioif0 : String :=
  "cat > /etc/ifconfig.vioif0 << EOF\n!dhcpcd\nmtu 1460\nEOF"

/-- A `pkg_add` command, as produced by the Python `%`-formatting
`"env PKG_PATH=http://ftp.netbsd.org/pub/pkgsrc/packages/NetBSD/%s/%s/All/ pkg_add <pkgs>" % (arch, release)`. -/
def pkgAddCmd (arch release pkgs : String) : String :=
  "env PKG_PATH=http://ftp.netbsd.org/pub/pkgsrc/packages/NetBSD/" ++ arch ++ "/" ++
    release ++ "/All/ pkg_add " ++ pkgs

/-- The `ed` script that removes the `/tmp` entry from `/etc/fstab`. -/
def fstabEd : String :=
  "ed /etc/fstab << EOF\nH\n/\\/tmp/d\nwq\nEOF"

/-- The `commands` list of mkvm.py, in source order, parameterised by the two
command-line arguments `arch` and `release`. -/
def commands (arch release : String) : List String :=
  [ rcLocalAppend,
    ifconfigVioif0,
    "dhcpcd",
    pkgAddCmd arch release "bash curl",
    pkgAddCmd arch release "git-base",
    pkgAddCmd arch release "mozilla-rootcerts mozilla-rootcerts-openssl go14",
    pkgAddCmd arch release "emacs25-nox11 vim screen",
    pkgAddCmd arch release "clang cmake",
    fstabEd,
    "echo sshd=yes >> /etc/rc.conf",
    "echo PermitRootLogin without-password >> /etc/ssh/sshd_config",
    "/etc/rc.d/sshd restart",
    "sync; shutdown -hp now" ]

/-- The configuration mkvm.py passes to the `anita.Anita` constructor. -/
structure AnitaConfig where
  url : String
  workdir : String
  disk_size : String
  memory_size : String
  persist : Bool
  deriving DecidableEq, Repr

/-- The `anita.Anita(...)` construction in mkvm.py. -/
def mkvmConfig (arch : String) : AnitaConfig :=
  { url := "https://cdn.netbsd.org/pub/NetBSD/NetBSD-9.0/" ++ arch ++ "/",
    workdir := "work-NetBSD-" ++ arch,
    disk_size := "16G",
    memory_size := "2G",
    persist := true }

/-- One externally visible operation performed by mkvm.py against the `anita`
library: `a.boot()`, `anita.login(child)`, `anita.shell_cmd(child, cmd, t)`,
or `a.halt()`. -/
inductive Event where
  | boot
  | login
  | shellCmd (cmd : String) (timeout : Nat)
  | haltCall
  deriving DecidableEq, Repr

/-- Run a straight-line sequence of external operations under a failure oracle
`fails`. Each operation is attempted in order (and recorded in the trace); the
first one that raises aborts the sequence and is reported as the uncaught
exception. -/
def execSeq (fails : Event → Bool) : List Event → List Event × Option Event
  | [] => ([], none)
  | e :: rest =>
    if fails e then ([e], some e)
    else
      let r := execSeq fails rest
      (e :: r.1, r.2)

/-- The operations mkvm.py performs before the final `try: a.halt()`: boot,
login, then `anita.shell_cmd(child, cmd, 3600)` for each command in order. -/
def mkvmBody (arch release : String) : List Event :=
  Event.boot :: Event.login ::
    (commands arch release).map (fun c => Event.shellCmd c 3600)

/-- A whole run of mkvm.py under failure oracle `fails`: the body runs with
exceptions propagating, and, if the body completed, `a.halt()` is attempted
with any exception it raises swallowed by the bare `try`/`except: pass`.
Returns the trace of attempted operations and the uncaught exception, if any. -/
def mkvmRun (arch release : String) (fails : Event → Bool) :
    List Event × Option Event :=
  let r := execSeq fails (mkvmBody arch release)
  match r.2 with
  | some e => (r.1, some e)
  | none => (r.1 ++ [Event.haltCall], none)

/-- Extracts the shell-command payload of a trace event, if it is one. -/
def shellPayload : Event → Option String
  | Event.shellCmd c _ => some c
  | _ => none

theorem execSeq_all_ok (fails : Event → Bool) :
    ∀ l : List Event, (∀ e ∈ l, fails e = false) → execSeq fails l = (l, none)
  | [], _ => rfl
  | e :: rest, h => by
    have he : fails e = false := h e (List.mem_cons_self e rest)
    have hr := execSeq_all_ok fails rest (fun x hx => h x (List.mem_cons_of_mem e hx))
    simp [execSeq, he, hr]

theorem execSeq_fail_at (fails : Event → Bool) :
    ∀ (l1 : List Event) (e : Event) (l2 : List Event),
      (∀ x ∈ l1, fails x = false) → fails e = true →
      execSeq fails (l1 ++ e :: l2) = (l1 ++ [e], some e)
  | [], e, l2, _, he => by simp [execSeq, he]
  | x :: l1, e, l2, h1, he => by
    have hx : fails x = false := h1 x (List.mem_cons_self x l1)
    have hr := execSeq_fail_at fails l1 e l2
      (fun y hy => h1 y (List.mem_cons_of_mem x hy)) he
    simp [execSeq, hx, hr]

theorem mkvmRun_all_ok (arch release : String) (fails : Event → Bool)
    (h : ∀ e ∈ mkvmBody arch release, fails e = false) :
    mkvmRun arch release fails = (mkvmBody arch release ++ [Event.haltCall], none) := by
  simp [mkvmRun, execSeq_all_ok fails _ h]

theorem mkvmRun_shell_fail (arch release : String) (fails : Event → Bool)
    (pre : List String) (c : String) (post : List String)
    (hsplit : commands arch release = pre ++ c :: post)
    (hboot : fails Event.boot = false) (hlogin : fails Event.login = false)
    (hpre : ∀ d ∈ pre, fails (Event.shellCmd d 3600) = false)
    (hc : fails (Event.shellCmd c 3600) = true) :
    mkvmRun arch release fails =
      (Event.boot :: Event.login ::
         (pre.map (fun d => Event.shellCmd d 3600) ++ [Event.shellCmd c 3600]),
       some (Event.shellCmd c 3600)) := by
  have hbody : mkvmBody arch release =
      (Event.boot :: Event.login :: pre.map (fun d => Event.shellCmd d 3600)) ++
        Event.shellCmd c 3600 :: post.map (fun d => Event.shellCmd d 3600) := by
    simp [mkvmBody, hsplit]
  have hall : ∀ x ∈ Event.boot :: Event.login ::
      pre.map (fun d => Event.shellCmd d 3600), fails x = false := by
    intro x hx
    simp only [List.mem_cons, List.mem_map] at hx
    rcases hx with rfl | rfl | ⟨d, hd, rfl⟩
    · exact hboot
    · exact hlogin
    · exact hpre d hd
  have hrun := execSeq_fail_at fails
    (Event.boot :: Event.login :: pre.map (fun d => Event.shellCmd d 3600))
    (Event.shellCmd c 3600)
    (post.map (fun d => Event.shellCmd d 3600)) hall hc
  rw [← hbody] at hrun
  simp [mkvmRun, hrun]

/-- Claim C1: in mkvm.py, an exception raised by the final `a.halt()` is
swallowed by the bare `try`/`except: pass`, so the script still completes
normally; but an exception from any `anita.shell_cmd` in the command loop
propagates uncaught, terminating the script before any later command runs
(the trace ends at the failing command and `a.halt()` is never reached). -/
theorem halt_failure_suppressed_shell_failure_fatal
    (arch release : String) (fails : Event → Bool) :
    ((∀ e, fails e = true → e = Event.haltCall) →
        (mkvmRun arch release fails).2 = none) ∧
    (∀ pre c post,
        commands arch release = pre ++ c :: post →
        fails Event.boot = false → fails Event.login = false →
        (∀ d ∈ pre, fails (Event.shellCmd d 3600) = false) →
        fails (Event.shellCmd c 3600) = true →
        (mkvmRun arch release fails).2 = some (Event.shellCmd c 3600) ∧
          (mkvmRun arch release fails).1 =
            Event.boot :: Event.login ::
              (pre.map (fun d => Event.shellCmd d 3600) ++
                [Event.shellCmd c 3600])) := by
  constructor
  · intro honly
    have h : ∀ e ∈ mkvmBody arch release, fails e = false := by
      intro e he
      cases hfe : fails e with
      | false => rfl
      | true =>
        have : e = Event.haltCall := honly e hfe
        subst this
        simp [mkvmBody, List.mem_map] at he
    rw [mkvmRun_all_ok arch release fails h]
  · intro pre c post hsplit hboot hlogin hpre hc
    rw [mkvmRun_shell_fail arch release fails pre c post hsplit hboot hlogin hpre hc]
    exact ⟨rfl, rfl⟩

/-- Witness for C1: with `arch = "amd64"`, `release = "9.0"`, an oracle that
fails only the halt leaves no uncaught exception, while an oracle that fails
the `dhcpcd` shell command aborts the run with that exception uncaught. -/
theorem halt_failure_suppressed_shell_failure_fatal_witness :
    (mkvmRun "amd64" "9.0" (fun e => decide (e = Event.haltCall))).2 = none ∧
    (mkvmRun "amd64" "9.0"
        (fun e => decide (e = Event.shellCmd "dhcpcd" 3600))).2 =
      some (Event.shellCmd "dhcpcd" 3600) :=
  ⟨(halt_failure_suppressed_shell_failure_fatal "amd64" "9.0"
        (fun e => decide (e = Event.haltCall))).1
      (fun _ he => of_decide_eq_true he),
   ((halt_failure_suppressed_shell_failure_fatal "amd64" "9.0"
        (fun e => decide (e = Event.shellCmd "dhcpcd" 3600))).2
      [rcLocalAppend, ifconfigVioif0] "dhcpcd"
      [ pkgAddCmd "amd64" "9.0" "bash curl",
        pkgAddCmd "amd64" "9.0" "git-base",
        pkgAddCmd "amd64" "9.0" "mozilla-rootcerts mozilla-rootcerts-openssl go14",
        pkgAddCmd "amd64" "9.0" "emacs25-nox11 vim screen",
        pkgAddCmd "amd64" "9.0" "clang cmake",
        fstabEd,
        "echo sshd=yes >> /etc/rc.conf",
        "echo PermitRootLogin without-password >> /etc/ssh/sshd_config",
        "/etc/rc.d/sshd restart",
        "sync; shutdown -hp now" ]
      rfl (by decide) (by decide) (by decide) (by decide)).1⟩

theorem filterMap_shellPayload_map (l : List String) :
    List.filterMap (shellPayload ∘ fun c => Event.shellCmd c 3600) l = l := by
  induction l with
  | nil => rfl
  | cons a t ih => simp [shellPayload, Function.comp, ih]

/-- Claim C2: in a run where no command fails, the shell commands issued to
the guest are exactly the `commands` list, in its literal order — the rc.local
append first, then the ifconfig.vioif0 write, `dhcpcd`, the five `pkg_add`
commands, the fstab edit, the two config appends, the sshd restart, and
`sync; shutdown -hp now` last — with nothing skipped, reordered or repeated. -/
theorem shell_commands_in_literal_order
    (arch release : String) (fails : Event → Bool)
    (h : ∀ e ∈ mkvmBody arch release, fails e = false) :
    (mkvmRun arch release fails).1.filterMap shellPayload = commands arch release ∧
    commands arch release =
      [ rcLocalAppend,
        ifconfigVioif0,
        "dhcpcd",
        pkgAddCmd arch release "bash curl",
        pkgAddCmd arch release "git-base",
        pkgAddCmd arch release "mozilla-rootcerts mozilla-rootcerts-openssl go14",
        pkgAddCmd arch release "emacs25-nox11 vim screen",
        pkgAddCmd arch release "clang cmake",
        fstabEd,
        "echo sshd=yes >> /etc/rc.conf",
        "echo PermitRootLogin without-password >> /etc/ssh/sshd_config",
        "/etc/rc.d/sshd restart",
        "sync; shutdown -hp now" ] := by
  refine ⟨?_, rfl⟩
  rw [mkvmRun_all_ok arch release fails h]
  simp [mkvmBody, shellPayload, filterMap_shellPayload_map]

/-- Witness for C2 at `arch = "amd64"`, `release = "9.0"` with a failure-free
oracle. -/
theorem shell_commands_in_literal_order_witness :
    (mkvmRun "amd64" "9.0" (fun _ => false)).1.filterMap shellPayload =
      commands "amd64" "9.0" :=
  (shell_commands_in_literal_order "amd64" "9.0" (fun _ => false)
    (fun _ _ => rfl)).1

/-- Claim C7: for every arch, the Anita VM is constructed from the image URL
`https://cdn.netbsd.org/pub/NetBSD/NetBSD-9.0/<arch>/`, with disk size 16G,
memory size 2G, working directory `work-NetBSD-<arch>`, and persist on. -/
theorem anita_config_fixed (arch : String) :
    (mkvmConfig arch).url =
        "https://cdn.netbsd.org/pub/NetBSD/NetBSD-9.0/" ++ arch ++ "/" ∧
    (mkvmConfig arch).disk_size = "16G" ∧
    (mkvmConfig arch).memory_size = "2G" ∧
    (mkvmConfig arch).workdir = "work-NetBSD-" ++ arch ∧
    (mkvmConfig arch).persist = true :=
  ⟨rfl, rfl, rfl, rfl, rfl⟩

/-- Claim C8: in an execution whose boot, login and shell commands all
succeed, the trace boots exactly once and calls halt exactly once, with the
boot first (before every shell command) and the halt last (after all of
them); this holds whether or not the halt itself raises. -/
theorem boot_once_halt_once (arch release : String) (fails : Event → Bool)
    (h : ∀ e ∈ mkvmBody arch release, fails e = false) :
    (mkvmRun arch release fails).1 =
      (Event.boot :: Event.login ::
        (commands arch release).map (fun c => Event.shellCmd c 3600)) ++
        [Event.haltCall] ∧
    (mkvmRun arch release fails).1.count Event.boot = 1 ∧
    (mkvmRun arch release fails).1.count Event.haltCall = 1 ∧
    (mkvmRun arch release fails).1.head? = some Event.boot ∧
    (mkvmRun arch release fails).1.getLast? = some Event.haltCall := by
  have htr : (mkvmRun arch release fails).1 =
      (Event.boot :: Event.login ::
        (commands arch release).map (fun c => Event.shellCmd c 3600)) ++
        [Event.haltCall] := by
    rw [mkvmRun_all_ok arch release fails h]
    simp [mkvmBody]
  have hb0 : ((commands arch release).map
      (fun c => Event.shellCmd c 3600)).count Event.boot = 0 :=
    List.count_eq_zero.mpr (by simp)
  have hh0 : ((commands arch release).map
      (fun c => Event.shellCmd c 3600)).count Event.haltCall = 0 :=
    List.count_eq_zero.mpr (by simp)
  refine ⟨htr, ?_, ?_, ?_, ?_⟩
  · rw [htr]; simp [List.count_append, List.count_cons, hb0]
  · rw [htr]; simp [List.count_append, List.count_cons, hh0]
  · rw [htr]; simp
  · rw [htr]; exact List.getLast?_concat _

/-- Witness for C8 at `arch = "amd64"`, `release = "9.0"` with a failure-free
oracle. -/
theorem boot_once_halt_once_witness :
    (mkvmRun "amd64" "9.0" (fun _ => false)).1.count Event.boot = 1 ∧
    (mkvmRun "amd64" "9.0" (fun _ => false)).1.count Event.haltCall = 1 :=
  ⟨(boot_once_halt_once "amd64" "9.0" (fun _ => false) (fun _ _ => rfl)).2.1,
   (boot_once_halt_once "amd64" "9.0" (fun _ => false) (fun _ _ => rfl)).2.2.1⟩

/-- The top of mkvm.py: `arch = sys.argv[1]`, `release = sys.argv[2]`, then
the command list and the Anita construction. Accessing `sys.argv[1]` or
`sys.argv[2]` raises `IndexError` when absent, modelled as `none`. -/
def scriptOfArgv (argv : List String) : Option (List String × AnitaConfig) :=
  match argv with
  | _ :: arch :: release :: _ => some (commands arch release, mkvmConfig arch)
  | _ => none

/-- Counterexample to C9: mkvm.py's behavior does depend on its positional
command-line arguments — changing `argv[1]` from `amd64` to `i386` changes
both the command sequence (the `pkg_add` URLs) and the VM configuration (the
image URL and working directory). -/
theorem cli_args_change_behavior :
    scriptOfArgv ["mkvm.py", "amd64", "9.0"] ≠
      scriptOfArgv ["mkvm.py", "i386", "9.0"] := fun h =>
  absurd (congrArg (Option.map (fun x => x.2.workdir)) h) (by decide)

/-- Claim C9 as amended: mkvm.py's behavior depends on its command-line
arguments only through `argv[1]` (arch) and `argv[2]` (release); any two
argument vectors agreeing on those two positions yield the same command
sequence and the same VM configuration. -/
theorem behavior_determined_by_first_two_args (p q a r : String)
    (rest rest' : List String) :
    scriptOfArgv (p :: a :: r :: rest) = scriptOfArgv (q :: a :: r :: rest') :=
  rfl

end Mkvm

namespace Tricium

/-- The four analyzers named in tricium_simple.py's `analyzers` list. -/
inductive Analyzer where
  | HTTPS_CHECK
  | SPELLCHECKER
  | INCLUSIVE_LANGUAGE_CHECK
  | COPYRIGHT
  deriving DecidableEq, Repr

/-- The `analyzers` list built in `RunSteps`, in source order. -/
def triciumAnalyzers : List Analyzer :=
  [ Analyzer.HTTPS_CHECK,
    Analyzer.SPELLCHECKER,
    Analyzer.INCLUSIVE_LANGUAGE_CHECK,
    Analyzer.COPYRIGHT ]

/-- The fields of `api.tryserver.gerrit_change` that `RunSteps` reads. -/
structure GerritChange where
  host : String
  project : String
  change : Nat
  patchset : Nat
  deriving DecidableEq, Repr

/-- One framework call made by `RunSteps`, with the arguments it passes. -/
inductive RecipeCall where
  | getChangeDescription (url : String) (change patchset : Nat)
  | gitCheckout (url ref dirPath : String) (submodules : Bool)
  | getFilesAffectedByPatch (patchRoot reportProp : String)
  | runLegacy (analyzers : List Analyzer) (repoPath : String)
      (files : List String) (message : String)
  deriving DecidableEq, Repr

/-- The recipe-engine APIs `RunSteps` calls, as oracles: each call either
returns a value or raises (an `Except.error` carrying the exception). -/
structure Framework where
  getChangeDescription : String → Nat → Nat → Except String String
  gitCheckout : String → String → String → Bool → Except String Unit
  getFilesAffected : String → String → Except String (List String)
  runLegacy : List Analyzer → String → List String → String → Except String Unit

/-- The url passed to `get_change_description`:
`'https://%s' % api.tryserver.gerrit_change.host`. -/
def descUrlOf (gc : GerritChange) : String :=
  "https://" ++ gc.host

/-- The checkout url:
`'https://%s/%s' % (host, api.tryserver.gerrit_change.project)`. -/
def checkoutUrlOf (gc : GerritChange) : String :=
  "https://" ++ gc.host ++ "/" ++ gc.project

/-- `repo_path = api.path['start_dir'].join(project)`. -/
def repoPathOf (startDir project : String) : String :=
  startDir ++ "/" ++ project

/-- The ref computed in `RunSteps`:
`"refs/changes/%d/%d/%d" % (change % 100, change, patchset)`. -/
def changeRef (change patchset : Nat) : String :=
  "refs/changes/" ++ Nat.repr (change % 100) ++ "/" ++ Nat.repr change ++
    "/" ++ Nat.repr patchset

/-- Sequencing of one framework call: the call is attempted (recorded in the
trace); if it raises, the exception aborts the run (Python propagation),
otherwise the continuation `k` runs on the returned value. -/
def stepCall {α : Type} (call : RecipeCall) (r : Except String α)
    (k : α → List RecipeCall × Option String) :
    List RecipeCall × Option String :=
  match r with
  | Except.error e => ([call], some e)
  | Except.ok a => (call :: (k a).1, (k a).2)

/-- `RunSteps` of tricium_simple.py, in source order: fetch the change
description, check out the change at the computed ref, list the
patch-affected files, and run the fixed analyzer list. Python exceptions
propagate, so the first failing framework call aborts the run with its
error. Returns the trace of framework calls made and the uncaught exception,
if any. `project` stands for `api.tryserver.gerrit_change_repo_project`. -/
def RunSteps (fw : Framework) (gc : GerritChange) (project startDir : String) :
    List RecipeCall × Option String :=
  stepCall
    (RecipeCall.getChangeDescription (descUrlOf gc) gc.change gc.patchset)
    (fw.getChangeDescription (descUrlOf gc) gc.change gc.patchset)
    fun commit_message =>
  stepCall
    (RecipeCall.gitCheckout (checkoutUrlOf gc)
      (changeRef gc.change gc.patchset) (repoPathOf startDir project) false)
    (fw.gitCheckout (checkoutUrlOf gc) (changeRef gc.change gc.patchset)
      (repoPathOf startDir project) false)
    fun _ =>
  stepCall
    (RecipeCall.getFilesAffectedByPatch project "affected_files")
    (fw.getFilesAffected project "affected_files")
    fun affected_files =>
  stepCall
    (RecipeCall.runLegacy triciumAnalyzers (repoPathOf startDir project)
      affected_files commit_message)
    (fw.runLegacy triciumAnalyzers (repoPathOf startDir project)
      affected_files commit_message)
    fun _ => ([], none)

/-- Overall status of a recipe run in the test harness. -/
inductive Status where
  | success
  | failure
  deriving DecidableEq, Repr

/-- A run reports success exactly when no step raised. -/
def statusOf (r : List RecipeCall × Option String) : Status :=
  match r.2 with
  | none => Status.success
  | some _ => Status.failure

/-- The recipe-engine test harness: in `GenTests` fixtures every framework
call succeeds by default; `get_files_affected_by_patch` returns the fixture
file list given via `api.path.exists`, and the change description is a
harness-supplied placeholder. -/
def fixtureFramework (files : List String) : Framework :=
  { getChangeDescription := fun _ _ _ => Except.ok "Dummy change description",
    gitCheckout := fun _ _ _ _ => Except.ok (),
    getFilesAffected := fun _ _ => Except.ok files,
    runLegacy := fun _ _ _ _ => Except.ok () }

/-- The gerrit change described by `api.buildbucket.try_build(project='go',
builder='tricium-simple', git_repo='https://go.googlesource.com/go',
change_number=86753, patch_set=1)`. -/
def fixtureChange : GerritChange :=
  { host := "go-review.googlesource.com",
    project := "go",
    change := 86753,
    patchset := 1 }

/-- The affected-file list of the `one_file` test case. -/
def oneFileList : List String := ["README.md"]

/-- The affected-file list of the `many_files` test case. -/
def manyFilesList : List String :=
  ["go.mod", "go.sum", "build.go", "LICENSE", "README.md", "main.go"]

/-- Recognises an `api.tricium.run_legacy` call in a trace. -/
def isRunLegacy : RecipeCall → Bool
  | RecipeCall.runLegacy _ _ _ _ => true
  | _ => false

theorem RunSteps_descFail (fw : Framework) (gc : GerritChange)
    (project startDir e : String)
    (h : fw.getChangeDescription (descUrlOf gc) gc.change gc.patchset =
      Except.error e) :
    RunSteps fw gc project startDir =
      ([RecipeCall.getChangeDescription (descUrlOf gc) gc.change gc.patchset],
       some e) := by
  unfold RunSteps
  simp only [h, stepCall]

theorem RunSteps_checkoutFail (fw : Framework) (gc : GerritChange)
    (project startDir msg e : String)
    (h1 : fw.getChangeDescription (descUrlOf gc) gc.change gc.patchset =
      Except.ok msg)
    (h2 : fw.gitCheckout (checkoutUrlOf gc) (changeRef gc.change gc.patchset)
      (repoPathOf startDir project) false = Except.error e) :
    RunSteps fw gc project startDir =
      ([RecipeCall.getChangeDescription (descUrlOf gc) gc.change gc.patchset,
        RecipeCall.gitCheckout (checkoutUrlOf gc)
          (changeRef gc.change gc.patchset) (repoPathOf startDir project)
          false],
       some e) := by
  unfold RunSteps
  simp only [h1, h2, stepCall]

theorem RunSteps_filesFail (fw : Framework) (gc : GerritChange)
    (project startDir msg e : String)
    (h1 : fw.getChangeDescription (descUrlOf gc) gc.change gc.patchset =
      Except.ok msg)
    (h2 : fw.gitCheckout (checkoutUrlOf gc) (changeRef gc.change gc.patchset)
      (repoPathOf startDir project) false = Except.ok ())
    (h3 : fw.getFilesAffected project "affected_files" = Except.error e) :
    RunSteps fw gc project startDir =
      ([RecipeCall.getChangeDescription (descUrlOf gc) gc.change gc.patchset,
        RecipeCall.gitCheckout (checkoutUrlOf gc)
          (changeRef gc.change gc.patchset) (repoPathOf startDir project)
          false,
        RecipeCall.getFilesAffectedByPatch project "affected_files"],
       some e) := by
  unfold RunSteps
  simp only [h1, h2, h3, stepCall]

theorem RunSteps_runLegacyFail (fw : Framework) (gc : GerritChange)
    (project startDir msg : String) (files : List String) (e : String)
    (h1 : fw.getChangeDescription (descUrlOf gc) gc.change gc.patchset =
      Except.ok msg)
    (h2 : fw.gitCheckout (checkoutUrlOf gc) (changeRef gc.change gc.patchset)
      (repoPathOf startDir project) false = Except.ok ())
    (h3 : fw.getFilesAffected project "affected_files" = Except.ok files)
    (h4 : fw.runLegacy triciumAnalyzers (repoPathOf startDir project) files
      msg = Except.error e) :
    RunSteps fw gc project startDir =
      ([RecipeCall.getChangeDescription (descUrlOf gc) gc.change gc.patchset,
        RecipeCall.gitCheckout (checkoutUrlOf gc)
          (changeRef gc.change gc.patchset) (repoPathOf startDir project)
          false,
        RecipeCall.getFilesAffectedByPatch project "affected_files",
        RecipeCall.runLegacy triciumAnalyzers (repoPathOf startDir project)
          files msg],
       some e) := by
  unfold RunSteps
  simp only [h1, h2, h3, h4, stepCall]

theorem RunSteps_allOk (fw : Framework) (gc : GerritChange)
    (project startDir msg : String) (files : List String)
    (h1 : fw.getChangeDescription (descUrlOf gc) gc.change gc.patchset =
      Except.ok msg)
    (h2 : fw.gitCheckout (checkoutUrlOf gc) (changeRef gc.change gc.patchset)
      (repoPathOf startDir project) false = Except.ok ())
    (h3 : fw.getFilesAffected project "affected_files" = Except.ok files)
    (h4 : fw.runLegacy triciumAnalyzers (repoPathOf startDir project) files
      msg = Except.ok ()) :
    RunSteps fw gc project startDir =
      ([RecipeCall.getChangeDescription (descUrlOf gc) gc.change gc.patchset,
        RecipeCall.gitCheckout (checkoutUrlOf gc)
          (changeRef gc.change gc.patchset) (repoPathOf startDir project)
          false,
        RecipeCall.getFilesAffectedByPatch project "affected_files",
        RecipeCall.runLegacy triciumAnalyzers (repoPathOf startDir project)
          files msg],
       none) := by
  unfold RunSteps
  simp only [h1, h2, h3, h4, stepCall]

/-- Claim C3: on the `one_file` fixture — change 86753, patch set 1, linux
64-bit, patch touching only `README.md` — running `RunSteps` under the test
harness reports overall status success. -/
theorem one_file_reports_success :
    statusOf (RunSteps (fixtureFramework oneFileList) fixtureChange "go"
      "[START_DIR]") = Status.success := rfl

/-- Claim C4: on the `many_files` fixture — the patch touching go.mod,
go.sum, build.go, LICENSE, README.md and main.go — running `RunSteps` under
the test harness reports overall status success. -/
theorem many_files_reports_success :
    statusOf (RunSteps (fixtureFramework manyFilesList) fixtureChange "go"
      "[START_DIR]") = Status.success := rfl

/-- Claim C5: any run of `RunSteps` that completes invokes `run_legacy`
exactly once, passing the fixed analyzer list HTTPS_CHECK, SPELLCHECKER,
INCLUSIVE_LANGUAGE_CHECK, COPYRIGHT in that order, together with the
checkout path, the files affected by the patch (as returned by the
framework), and the change's commit message (as fetched). -/
theorem single_analyzer_run (fw : Framework) (gc : GerritChange)
    (project startDir : String) (tr : List RecipeCall)
    (h : RunSteps fw gc project startDir = (tr, none)) :
    triciumAnalyzers =
      [Analyzer.HTTPS_CHECK, Analyzer.SPELLCHECKER,
       Analyzer.INCLUSIVE_LANGUAGE_CHECK, Analyzer.COPYRIGHT] ∧
    ∃ commit_message affected_files,
      fw.getChangeDescription (descUrlOf gc) gc.change gc.patchset =
        Except.ok commit_message ∧
      fw.getFilesAffected project "affected_files" =
        Except.ok affected_files ∧
      tr.countP isRunLegacy = 1 ∧
      RecipeCall.runLegacy triciumAnalyzers (repoPathOf startDir project)
        affected_files commit_message ∈ tr := by
  refine ⟨rfl, ?_⟩
  cases hdesc : fw.getChangeDescription (descUrlOf gc) gc.change gc.patchset with
  | error e =>
    rw [RunSteps_descFail fw gc project startDir e hdesc] at h
    simp at h
  | ok msg =>
    cases hco : fw.gitCheckout (checkoutUrlOf gc)
        (changeRef gc.change gc.patchset) (repoPathOf startDir project) false with
    | error e =>
      rw [RunSteps_checkoutFail fw gc project startDir msg e hdesc hco] at h
      simp at h
    | ok u =>
      cases u
      cases hfa : fw.getFilesAffected project "affected_files" with
      | error e =>
        rw [RunSteps_filesFail fw gc project startDir msg e hdesc hco hfa] at h
        simp at h
      | ok files =>
        cases hrl : fw.runLegacy triciumAnalyzers (repoPathOf startDir project)
            files msg with
        | error e =>
          rw [RunSteps_runLegacyFail fw gc project startDir msg files e
            hdesc hco hfa hrl] at h
          simp at h
        | ok v =>
          cases v
          rw [RunSteps_allOk fw gc project startDir msg files
            hdesc hco hfa hrl] at h
          have htr : tr =
              [RecipeCall.getChangeDescription (descUrlOf gc) gc.change
                 gc.patchset,
               RecipeCall.gitCheckout (checkoutUrlOf gc)
                 (changeRef gc.change gc.patchset)
                 (repoPathOf startDir project) false,
               RecipeCall.getFilesAffectedByPatch project "affected_files",
               RecipeCall.runLegacy triciumAnalyzers
                 (repoPathOf startDir project) files msg] := by
            have h1 := congrArg Prod.fst h
            simpa using h1.symm
          subst htr
          refine ⟨msg, files, rfl, rfl, ?_, ?_⟩
          · simp [List.countP_cons, isRunLegacy]
          · simp

/-- Witness for C5 on the `one_file` fixture. -/
theorem single_analyzer_run_witness :
    triciumAnalyzers =
      [Analyzer.HTTPS_CHECK, Analyzer.SPELLCHECKER,
       Analyzer.INCLUSIVE_LANGUAGE_CHECK, Analyzer.COPYRIGHT] ∧
    ∃ commit_message affected_files,
      (fixtureFramework oneFileList).getChangeDescription
          (descUrlOf fixtureChange) fixtureChange.change
          fixtureChange.patchset =
        Except.ok commit_message ∧
      (fixtureFramework oneFileList).getFilesAffected "go" "affected_files" =
        Except.ok affected_files ∧
      (List.countP isRunLegacy
        [RecipeCall.getChangeDescription (descUrlOf fixtureChange)
           fixtureChange.change fixtureChange.patchset,
         RecipeCall.gitCheckout (checkoutUrlOf fixtureChange)
           (changeRef fixtureChange.change fixtureChange.patchset)
           (repoPathOf "[START_DIR]" "go") false,
         RecipeCall.getFilesAffectedByPatch "go" "affected_files",
         RecipeCall.runLegacy triciumAnalyzers (repoPathOf "[START_DIR]" "go")
           oneFileList "Dummy change description"]) = 1 ∧
      RecipeCall.runLegacy triciumAnalyzers (repoPathOf "[START_DIR]" "go")
          affected_files commit_message ∈
        [RecipeCall.getChangeDescription (descUrlOf fixtureChange)
           fixtureChange.change fixtureChange.patchset,
         RecipeCall.gitCheckout (checkoutUrlOf fixtureChange)
           (changeRef fixtureChange.change fixtureChange.patchset)
           (repoPathOf "[START_DIR]" "go") false,
         RecipeCall.getFilesAffectedByPatch "go" "affected_files",
         RecipeCall.runLegacy triciumAnalyzers (repoPathOf "[START_DIR]" "go")
           oneFileList "Dummy change description"] :=
  single_analyzer_run (fixtureFramework oneFileList) fixtureChange "go"
    "[START_DIR]"
    [RecipeCall.getChangeDescription (descUrlOf fixtureChange)
       fixtureChange.change fixtureChange.patchset,
     RecipeCall.gitCheckout (checkoutUrlOf fixtureChange)
       (changeRef fixtureChange.change fixtureChange.patchset)
       (repoPathOf "[START_DIR]" "go") false,
     RecipeCall.getFilesAffectedByPatch "go" "affected_files",
     RecipeCall.runLegacy triciumAnalyzers (repoPathOf "[START_DIR]" "go")
       oneFileList "Dummy change description"]
    rfl

/-- Claim C6: any checkout `RunSteps` performs uses the ref
`refs/changes/<change mod 100>/<change>/<patchset>`, each component an
unpadded decimal; in particular the first component is a single digit when
`change mod 100 < 10` (e.g. change 105 patch set 2 gives
`refs/changes/5/105/2`, not `refs/changes/05/105/2`). -/
theorem checkout_ref_format :
    (∀ (fw : Framework) (gc : GerritChange) (project startDir url r d : String)
        (s : Bool),
        RecipeCall.gitCheckout url r d s ∈ (RunSteps fw gc project startDir).1 →
        r = "refs/changes/" ++ Nat.repr (gc.change % 100) ++ "/" ++
            Nat.repr gc.change ++ "/" ++ Nat.repr gc.patchset) ∧
    changeRef 105 2 = "refs/changes/5/105/2" ∧
    changeRef 86753 1 = "refs/changes/53/86753/1" := by
  refine ⟨?_, by decide, by decide⟩
  intro fw gc project startDir url r d s hmem
  cases hdesc : fw.getChangeDescription (descUrlOf gc) gc.change gc.patchset with
  | error e =>
    rw [RunSteps_descFail fw gc project startDir e hdesc] at hmem
    simp at hmem
  | ok msg =>
    cases hco : fw.gitCheckout (checkoutUrlOf gc)
        (changeRef gc.change gc.patchset) (repoPathOf startDir project) false with
    | error e =>
      rw [RunSteps_checkoutFail fw gc project startDir msg e hdesc hco] at hmem
      simp at hmem
      exact hmem.2.1
    | ok u =>
      cases u
      cases hfa : fw.getFilesAffected project "affected_files" with
      | error e =>
        rw [RunSteps_filesFail fw gc project startDir msg e hdesc hco hfa]
          at hmem
        simp at hmem
        exact hmem.2.1
      | ok files =>
        cases hrl : fw.runLegacy triciumAnalyzers
            (repoPathOf startDir project) files msg with
        | error e =>
          rw [RunSteps_runLegacyFail fw gc project startDir msg files e
            hdesc hco hfa hrl] at hmem
          simp at hmem
          exact hmem.2.1
        | ok v =>
          cases v
          rw [RunSteps_allOk fw gc project startDir msg files
            hdesc hco hfa hrl] at hmem
          simp at hmem
          exact hmem.2.1

/-- Witness for C6: the checkout in the `one_file` fixture run uses ref
`refs/changes/53/86753/1`, matching the unpadded-decimal format. -/
theorem checkout_ref_format_witness :
    "refs/changes/53/86753/1" =
      "refs/changes/" ++ Nat.repr (86753 % 100) ++ "/" ++ Nat.repr 86753 ++
        "/" ++ Nat.repr 1 :=
  checkout_ref_format.1 (fixtureFramework oneFileList) fixtureChange "go"
    "[START_DIR]" (checkoutUrlOf fixtureChange) "refs/changes/53/86753/1"
    (repoPathOf "[START_DIR]" "go") false (by decide)

/-- Claim C10: `RunSteps` defines no error handling of its own — whichever
framework call raises first, the run aborts right there (no later call is
made, none is retried) and the exception is reported unchanged. -/
theorem runsteps_no_error_handling (fw : Framework) (gc : GerritChange)
    (project startDir : String) :
    (∀ e, fw.getChangeDescription (descUrlOf gc) gc.change gc.patchset =
        Except.error e →
      RunSteps fw gc project startDir =
        ([RecipeCall.getChangeDescription (descUrlOf gc) gc.change
            gc.patchset], some e)) ∧
    (∀ msg e, fw.getChangeDescription (descUrlOf gc) gc.change gc.patchset =
        Except.ok msg →
      fw.gitCheckout (checkoutUrlOf gc) (changeRef gc.change gc.patchset)
          (repoPathOf startDir project) false = Except.error e →
      RunSteps fw gc project startDir =
        ([RecipeCall.getChangeDescription (descUrlOf gc) gc.change
            gc.patchset,
          RecipeCall.gitCheckout (checkoutUrlOf gc)
            (changeRef gc.change gc.patchset) (repoPathOf startDir project)
            false], some e)) ∧
    (∀ msg e, fw.getChangeDescription (descUrlOf gc) gc.change gc.patchset =
        Except.ok msg →
      fw.gitCheckout (checkoutUrlOf gc) (changeRef gc.change gc.patchset)
          (repoPathOf startDir project) false = Except.ok () →
      fw.getFilesAffected project "affected_files" = Except.error e →
      RunSteps fw gc project startDir =
        ([RecipeCall.getChangeDescription (descUrlOf gc) gc.change
            gc.patchset,
          RecipeCall.gitCheckout (checkoutUrlOf gc)
            (changeRef gc.change gc.patchset) (repoPathOf startDir project)
            false,
          RecipeCall.getFilesAffectedByPatch project "affected_files"],
         some e)) ∧
    (∀ msg files e,
      fw.getChangeDescription (descUrlOf gc) gc.change gc.patchset =
        Except.ok msg →
      fw.gitCheckout (checkoutUrlOf gc) (changeRef gc.change gc.patchset)
          (repoPathOf startDir project) false = Except.ok () →
      fw.getFilesAffected project "affected_files" = Except.ok files →
      fw.runLegacy triciumAnalyzers (repoPathOf startDir project) files msg =
        Except.error e →
      RunSteps fw gc project startDir =
        ([RecipeCall.getChangeDescription (descUrlOf gc) gc.change
            gc.patchset,
          RecipeCall.gitCheckout (checkoutUrlOf gc)
            (changeRef gc.change gc.patchset) (repoPathOf startDir project)
            false,
          RecipeCall.getFilesAffectedByPatch project "affected_files",
          RecipeCall.runLegacy triciumAnalyzers (repoPathOf startDir project)
            files msg],
         some e)) :=
  ⟨fun e h => RunSteps_descFail fw gc project startDir e h,
   fun msg e h1 h2 => RunSteps_checkoutFail fw gc project startDir msg e h1 h2,
   fun msg e h1 h2 h3 =>
     RunSteps_filesFail fw gc project startDir msg e h1 h2 h3,
   fun msg files e h1 h2 h3 h4 =>
     RunSteps_runLegacyFail fw gc project startDir msg files e h1 h2 h3 h4⟩

/-- A framework whose git checkout raises, for exercising error
propagation. -/
def failingCheckoutFw : Framework :=
  { getChangeDescription := fun _ _ _ => Except.ok "Dummy change description",
    gitCheckout := fun _ _ _ _ => Except.error "git checkout failed",
    getFilesAffected := fun _ _ => Except.ok [],
    runLegacy := fun _ _ _ _ => Except.ok () }

/-- Witness for C10: when the checkout step raises, the run stops after the
first two calls and reports exactly that error. -/
theorem runsteps_no_error_handling_witness :
    RunSteps failingCheckoutFw fixtureChange "go" "[START_DIR]" =
      ([RecipeCall.getChangeDescription (descUrlOf fixtureChange)
          fixtureChange.change fixtureChange.patchset,
        RecipeCall.gitCheckout (checkoutUrlOf fixtureChange)
          (changeRef fixtureChange.change fixtureChange.patchset)
          (repoPathOf "[START_DIR]" "go") false],
       some "git checkout failed") :=
  (runsteps_no_error_handling failingCheckoutFw fixtureChange "go"
    "[START_DIR]").2.1 "Dummy change description" "git checkout failed" rfl rfl

end Tricium
